import Mathlib

/-!
Classnote backend — Job & Quota Orchestration Engine, shallow embedding.

This file embeds the quota guard, idempotency guard, job state machines and
the summarize admission/worker path of the classnote backend, as recorded in
the repository's own documents:

* `docs/PLAN_LIMITS.md` — per-plan limit tables, transactional gates, error codes;
* `docs/BACKEND_DESIGN_SPEC.md` — jobs sub-collection state machine (§2.3),
  summarize flow and `/internal/tasks/summarize` worker behaviour;
* `docs/TECHNICAL_AUDIT_REPORT.md` — current `summarize_session` flow
  (sessions.py:212-247) and the tasks.py retry strategy (200 OK on failure);
* the release-audit report (`src/unnamed/part_006`) — exact excerpts of
  `cost_guard.py` plan selection, `usage_logger.consume_free_cloud_credit`,
  and the `AudioStatus` enum of `util_models.py`;
* the background-sync verification design (`src/unnamed/part_002`) —
  `ensure_idempotency` and the audio upload state-transition table.

The Python application sources themselves are not part of the corpus; every
definition below is taken from the code excerpts and behaviour statements in
those in-repo documents, and where a piece is documented nowhere it is
modelled from the specification (marked `Modelled from the spec:`).
-/

namespace Classnote

/-! ## Plans and limit tables (`docs/PLAN_LIMITS.md`, cost_guard.py excerpts) -/

/-- The per-plan ceilings kept by `cost_guard.py` (keys as in the audit
report's appendix C: `server_session`, `cloud_session`, `cloud_stt_sec`,
`summary_generated`, `quiz_generated`). -/
structure Limits where
  server_session : Nat
  cloud_session : Nat
  cloud_stt_sec : Nat
  summary_generated : Nat
  quiz_generated : Nat
deriving DecidableEq, Repr

/-- Free-plan ceilings, from the Free Plan table of `docs/PLAN_LIMITS.md`:
5 server sessions, 3 cloud sessions / month, 1800 s of cloud STT,
3 summaries, 3 quizzes. -/
def FREE_LIMITS : Limits :=
  { server_session := 5
    cloud_session := 3
    cloud_stt_sec := 1800
    summary_generated := 3
    quiz_generated := 3 }

/-- The `BASIC_LIMITS` table the release audit (appendix C) says must be
added to `cost_guard.py`; it is absent from the deployed guard. -/
def BASIC_LIMITS : Limits :=
  { server_session := 20
    cloud_session := 10
    cloud_stt_sec := 36000
    summary_generated := 20
    quiz_generated := 10 }

/-- Modelled from the spec: premium ceilings are not recorded anywhere under
the corpus ("Premium: Unlimited (within fair use)"), so a very large table
stands in for them; no claim below depends on these numbers. -/
def PREMIUM_LIMITS : Limits :=
  { server_session := 1000000
    cloud_session := 1000000
    cloud_stt_sec := 1000000
    summary_generated := 1000000
    quiz_generated := 1000000 }

/-- Plan-to-limits selection exactly as quoted from `cost_guard.py:56-129`
in the release audit (§2.1):

```python
if plan == "premium":
    limits = PREMIUM_LIMITS
else:
    limits = FREE_LIMITS  # Basic も Free 扱い
```

Any plan other than `premium` — including `basic` — is evaluated against
the free table. -/
def limitsFor (plan : String) : Limits :=
  if plan = "premium" then PREMIUM_LIMITS else FREE_LIMITS

/-- The monthly usage counter document `user_monthly_usage/{uid}_{monthKey}`
(`docs/PLAN_LIMITS.md` §3, "Source of Truth"). -/
structure UsageCounterSet where
  cloudSecondsUsed : Nat
  cloudSessionsStarted : Nat
  summaryGenerated : Nat
  quizGenerated : Nat
  serverSessionCount : Nat
deriving DecidableEq, Repr

/-- The counters guarded by the cost guard, one per limit key. -/
inductive CounterKey
  | server_session
  | cloud_session
  | cloud_stt_sec
  | summary_generated
  | quiz_generated
deriving DecidableEq, Repr

/-- Ceiling of a counter under a limit table. -/
def ceilingOf (l : Limits) : CounterKey → Nat
  | .server_session => l.server_session
  | .cloud_session => l.cloud_session
  | .cloud_stt_sec => l.cloud_stt_sec
  | .summary_generated => l.summary_generated
  | .quiz_generated => l.quiz_generated

/-- Current value of a counter in a usage document. -/
def usedOf (u : UsageCounterSet) : CounterKey → Nat
  | .server_session => u.serverSessionCount
  | .cloud_session => u.cloudSessionsStarted
  | .cloud_stt_sec => u.cloudSecondsUsed
  | .summary_generated => u.summaryGenerated
  | .quiz_generated => u.quizGenerated

/-- Increment a counter by an amount (the transactional gate's write). -/
def incr (u : UsageCounterSet) (k : CounterKey) (amount : Nat) : UsageCounterSet :=
  match k with
  | .server_session => { u with serverSessionCount := u.serverSessionCount + amount }
  | .cloud_session => { u with cloudSessionsStarted := u.cloudSessionsStarted + amount }
  | .cloud_stt_sec => { u with cloudSecondsUsed := u.cloudSecondsUsed + amount }
  | .summary_generated => { u with summaryGenerated := u.summaryGenerated + amount }
  | .quiz_generated => { u with quizGenerated := u.quizGenerated + amount }

/-- The user-facing error code attached to each hard limit, from the
"Error Codes (HTTP 409 Conflict)" section of `docs/PLAN_LIMITS.md` and the
per-row `(Error: ...)` annotations of the Free Plan table. -/
def limitIdOf : CounterKey → String
  | .server_session => "server_session_limit"
  | .cloud_session => "cloud_session_limit"
  | .cloud_stt_sec => "cloud_minutes_limit"
  | .summary_generated => "summary_limit"
  | .quiz_generated => "quiz_limit"

/-- The check `cost_guard.guard_can_consume`: the hard-stop rule of
`docs/PLAN_LIMITS.md` ("Block if `summaryGenerated >= 3`", "Block if
`cloudSecondsUsed >= 1800`", ...): a consumption of counter `k` is denied
with that counter's error code when the counter has reached the plan's
ceiling, and allowed otherwise.  Returns `some limitId` for a denial,
`none` for an allow. -/
def guard_can_consume (plan : String) (u : UsageCounterSet) (k : CounterKey) :
    Option String :=
  let l := limitsFor plan
  if ceilingOf l k ≤ usedOf u k then some (limitIdOf k) else none

/-- The transactional reserve gate of `docs/PLAN_LIMITS.md` §3 ("All billable
operations MUST reserve quota via `CostGuardService` (Transactional) BEFORE
execution"): an atomic check-and-increment on the counter document. -/
def reserve (plan : String) (u : UsageCounterSet) (k : CounterKey) (amount : Nat) :
    Except String UsageCounterSet :=
  match guard_can_consume plan u k with
  | some limitId => .error limitId
  | none => .ok (incr u k amount)

/-- The function `usage_logger.consume_free_cloud_credit`, exactly as the release audit
(§2.3, *WebSocket で Cost Guard バイパス*) documents the current code:

```python
# consume_free_cloud_credit() は常に True を返す (deprecated)
allowed = await usage_logger.consume_free_cloud_credit(uid)  # 常に True
```

The WebSocket streaming path gates admission on this deprecated function,
which returns `True` unconditionally — it never consults any counter. -/
def consume_free_cloud_credit (_uid : String) : Bool := true

/-- Run one reserve attempt and fold the outcome: used by the no-overdraft
lemma over arbitrary sequences of transactional reserve calls.  Each call is
atomic (a Firestore transaction), so every interleaving of concurrent calls
is one such sequence. -/
def reserveSeq (plan : String) (k : CounterKey) (amount : Nat)
    (u : UsageCounterSet) : Nat → Nat × UsageCounterSet
  | 0 => (0, u)
  | n + 1 =>
    match reserve plan u k amount with
    | .ok u' =>
      let r := reserveSeq plan k amount u' n
      (r.1 + 1, r.2)
    | .error _ => reserveSeq plan k amount u n

/-! ## Idempotency guard (`app/utils/idempotency.py`, quoted in the
background-sync verification design §3.2) -/

/-- A document of the `idempotency_locks` collection. -/
structure IdemRecord where
  context : String
  status : String
deriving DecidableEq, Repr

/-- The failure raised by the guard when the key was already recorded. -/
inductive IdemError
  | resourceAlreadyProcessed
deriving DecidableEq, Repr

/-- The guard `ensure_idempotency(key, context)` exactly as quoted in the
verification design document:

```python
async def ensure_idempotency(key: str, context: str):
    doc_ref = db.collection("idempotency_locks").document(key)
    if doc_ref.get().exists:
        raise ResourceAlreadyProcessed()
    doc_ref.set({"context": context, ..., "status": "processing"})
```

If the key's lock document exists the guard raises
`ResourceAlreadyProcessed`; otherwise it creates the lock (status
`processing`) and lets the caller proceed.  The store is the
`idempotency_locks` collection as an association list. -/
def ensure_idempotency (locks : List (String × IdemRecord)) (key ctx : String) :
    Except IdemError (List (String × IdemRecord)) :=
  match locks.lookup key with
  | some _ => .error .resourceAlreadyProcessed
  | none => .ok ((key, { context := ctx, status := "processing" }) :: locks)

/-! ## Jobs sub-collection state machine (`docs/BACKEND_DESIGN_SPEC.md` §2.3) -/

/-- Status of a `sessions/{id}/jobs` document.  `docs/BACKEND_DESIGN_SPEC.md`
§2.3: "State Machine: `queued` -> `processing` -> `completed` / `failed`
(w/ `error` field)". -/
inductive JobStatus
  | queued
  | processing
  | completed
  | failed
deriving DecidableEq, Repr

/-- The Firestore string stored for each job status. -/
def JobStatus.value : JobStatus → String
  | .queued => "queued"
  | .processing => "processing"
  | .completed => "completed"
  | .failed => "failed"

/-- A job document: status plus the `error` field and the result artifact
reference. -/
structure JobRec where
  status : JobStatus
  error : Option String
  artifact : Option String
deriving DecidableEq, Repr

/-- A job as created by admission: heavy processing starts queued, with no
error and no artifact yet (`docs/BACKEND_DESIGN_SPEC.md` §2.3). -/
def createJob : JobRec :=
  { status := .queued, error := none, artifact := none }

/-- Events driving a job document: the worker picking the job up (the
dispatch handoff), worker success with the produced artifact, worker failure
with a reason. -/
inductive JobEvent
  | start
  | complete (artifact : String)
  | fail (reason : String) (retryable : Bool)
deriving DecidableEq, Repr

/-- Transition function of the jobs state machine, from
`docs/BACKEND_DESIGN_SPEC.md` §2.3 (`queued -> processing -> completed /
failed`, failures recording the `error` field).  Modelled from the spec:
the worker callback handler (`app/routes/tasks.py`) is not in the corpus;
the spec (§4.6) requires a duplicate callback for an already-terminal job
to be a no-op detected via the state check, so events arriving in a state
that does not expect them leave the document unchanged. -/
def jobApply (j : JobRec) (e : JobEvent) : JobRec :=
  match j.status, e with
  | .queued, .start => { j with status := .processing }
  | .processing, .complete a => { j with status := .completed, artifact := some a }
  | .processing, .fail r _ => { j with status := .failed, error := some r }
  | _, _ => j

/-! ## Audio asset lifecycle (`util_models.py` `AudioStatus` as quoted in the
release audit, appendix D; upload flow per the verification design §2.A) -/

/-- The `AudioStatus` enum currently in `app/util_models.py`, exactly the
members listed in the release audit's appendix D *before* its proposed fix:
`DELETED` is absent (audit §6.1: `AudioStatus.DELETED` raises
`AttributeError` at sessions.py:3027). -/
inductive AudioStatus
  | pending
  | uploading
  | uploaded
  | processing
  | available
  | expired
  | unknown
  | failed
deriving DecidableEq, Repr

/-- The string value of each `AudioStatus` member (it is a `str` enum). -/
def AudioStatus.value : AudioStatus → String
  | .pending => "pending"
  | .uploading => "uploading"
  | .uploaded => "uploaded"
  | .processing => "processing"
  | .available => "available"
  | .expired => "expired"
  | .unknown => "unknown"
  | .failed => "failed"

/-- Parse a stored string back into the enum; `none` for a string that is
not a member (as Python's `AudioStatus(value)` would raise). -/
def AudioStatus.ofValue (s : String) : Option AudioStatus :=
  if s = "pending" then some .pending
  else if s = "uploading" then some .uploading
  else if s = "uploaded" then some .uploaded
  else if s = "processing" then some .processing
  else if s = "available" then some .available
  else if s = "expired" then some .expired
  else if s = "unknown" then some .unknown
  else if s = "failed" then some .failed
  else none

/-- Events of the audio upload flow, from the state-transition table of the
background-sync verification design (§2.A) and the expiry sweep. -/
inductive AudioEvent
  | commit
  | uploadedNotify
  | taskFailed
  | sweepExpire
deriving DecidableEq, Repr

/-- Audio upload flow transitions per the verification design's table:
`audio:commit` moves `pending` to `available`; `audio:uploaded` moves
`available` to `processing` (transcription enqueued); a failed transcription
task moves `processing` to `failed`; the time-based cleanup sweep moves a
non-terminal state to `expired` once `now > deleteAfterAt`.  Events in
states the table does not list leave the status unchanged. -/
def audioStep (s : AudioStatus) (e : AudioEvent) : AudioStatus :=
  match s, e with
  | .pending, .commit => .available
  | .available, .uploadedNotify => .processing
  | .processing, .taskFailed => .failed
  | .pending, .sweepExpire => .expired
  | .uploading, .sweepExpire => .expired
  | .uploaded, .sweepExpire => .expired
  | .available, .sweepExpire => .expired
  | .processing, .sweepExpire => .expired
  | _, _ => s

/-! ## Summarize admission and worker path

`POST /sessions/{id}/summarize` (sessions.py:212-247 per the technical audit
report §3, with the transactional guard `docs/BACKEND_DESIGN_SPEC.md` marks
as implemented) and the worker `POST /internal/tasks/summarize`. -/

/-- The values the summarize path reads and writes into `summaryStatus`:
the transactional guard checks `status in ("running", "queued")`, admission
writes `"running"`, the worker writes `"completed"` or `"failed"`.  An
absent field is `Option.none` at the `Session` level. -/
inductive SumStatus
  | queued
  | running
  | completed
  | failed
deriving DecidableEq, Repr

/-- The summary-relevant slice of a `sessions` document. -/
structure Session where
  summaryStatus : Option SumStatus
  summaryMarkdown : Option String
  summaryError : Option String
deriving DecidableEq, Repr

/-- Engine state around one session: the session document, the owner's
monthly usage counters, and the number of summarize tasks sitting in the
Cloud Tasks queue. -/
structure Sys where
  session : Session
  usage : UsageCounterSet
  queuedTasks : Nat
deriving DecidableEq, Repr

/-- Responses of `POST /sessions/{id}/summarize`:
`alreadyRunning` — 202 with the in-flight status, nothing enqueued;
`cached` — 200 with the stored summary;
`accepted` — 202, status set to running and a task enqueued;
`denied` — 409 with the limit's error code, nothing enqueued. -/
inductive SummarizeResp
  | alreadyRunning (status : SumStatus)
  | cached (summary : String)
  | accepted
  | denied (limitId : String)
deriving DecidableEq, Repr

/-- The endpoint `summarize_session` (sessions.py:212-247), following the audit report's
flow summary and the transactional guard reproduced there:

1. if `summaryStatus in ("running", "queued")` — early 202, no side effect;
2. if `summaryStatus == "completed" and summaryMarkdown` — return the cached
   result, no side effect;
3. otherwise pass the AI-generation gate of `docs/PLAN_LIMITS.md` §3
   (check/increment `summaryGenerated`); a denial returns the limit's error
   code with no job created;
4. on allow, set `summaryStatus = "running"` and enqueue the Cloud Task. -/
def summarize_session (plan : String) (s : Sys) : SummarizeResp × Sys :=
  match s.session.summaryStatus, s.session.summaryMarkdown with
  | some .running, _ => (.alreadyRunning .running, s)
  | some .queued, _ => (.alreadyRunning .queued, s)
  | some .completed, some md => (.cached md, s)
  | _, _ =>
    match guard_can_consume plan s.usage .summary_generated with
    | some limitId => (.denied limitId, s)
    | none =>
      (.accepted,
       { session := { s.session with summaryStatus := some .running }
         usage := incr s.usage .summary_generated 1
         queuedTasks := s.queuedTasks + 1 })

/-- Worker outcome reported at `/internal/tasks/summarize`. -/
inductive WorkerOutcome
  | success (markdown : String)
  | failure (reason : String) (retryable : Bool)
deriving DecidableEq, Repr

/-- The worker endpoint, POST /internal/tasks/summarize
(`docs/BACKEND_DESIGN_SPEC.md` flow box
and tasks.py:72-75 as quoted in the technical audit report §3.2): on success
store `summaryStatus = "completed"` with `summaryMarkdown`; on failure store
`summaryStatus = "failed"` with `summaryError`.  In both cases the handler
answers HTTP 200 OK — deliberately, "to prevent infinite loops", so Cloud
Tasks never redelivers and no retry happens; the usage counters are not
touched on either path. -/
def internal_tasks_summarize (o : WorkerOutcome) (s : Sys) : Nat × Sys :=
  match o with
  | .success md =>
    (200,
     { s with
         session :=
           { s.session with
               summaryStatus := some .completed
               summaryMarkdown := some md }
         queuedTasks := s.queuedTasks - 1 })
  | .failure r _ =>
    (200,
     { s with
         session :=
           { s.session with
               summaryStatus := some .failed
               summaryError := some r }
         queuedTasks := s.queuedTasks - 1 })

/-- States of the summarize engine reachable from a fresh session (no
summary status, no markdown, no error, no queued task) by admission calls
and worker deliveries. -/
inductive Reach : Sys → Prop
  | init (u : UsageCounterSet) :
      Reach { session := { summaryStatus := none
                           summaryMarkdown := none
                           summaryError := none }
              usage := u
              queuedTasks := 0 }
  | submit (plan : String) {s : Sys} :
      Reach s → Reach (summarize_session plan s).2
  | deliver (o : WorkerOutcome) {s : Sys} :
      Reach s → Reach (internal_tasks_summarize o s).2

/-! ## Helper lemmas -/

/-- Incrementing a counter adds exactly the amount to that counter. -/
theorem usedOf_incr (u : UsageCounterSet) (k : CounterKey) (a : Nat) :
    usedOf (incr u k a) k = usedOf u k + a := by
  cases k <;> rfl

/-- An admission call either leaves the state untouched (early return,
cached return, quota denial) or moves the session to `running`, adds one to
`summaryGenerated` and enqueues one task. -/
theorem summarize_session_snd (plan : String) (s : Sys) :
    (summarize_session plan s).2 = s ∨
    (summarize_session plan s).2 =
      { session := { s.session with summaryStatus := some .running }
        usage := incr s.usage .summary_generated 1
        queuedTasks := s.queuedTasks + 1 } := by
  obtain ⟨⟨st, md, err⟩, u, q⟩ := s
  unfold summarize_session
  rcases st with _ | st
  · rcases h : guard_can_consume plan u .summary_generated with _ | l <;> simp [h]
  · cases st with
    | queued => exact Or.inl rfl
    | running => exact Or.inl rfl
    | completed =>
      rcases md with _ | md
      · rcases h : guard_can_consume plan u .summary_generated with _ | l <;> simp [h]
      · exact Or.inl rfl
    | failed =>
      rcases h : guard_can_consume plan u .summary_generated with _ | l <;> simp [h]

/-- Engine invariant: every reachable state whose summary status is
`completed` carries a stored `summaryMarkdown` (the worker writes the two
fields together). -/
theorem reach_completed_has_markdown {s : Sys} (h : Reach s) :
    s.session.summaryStatus = some SumStatus.completed →
    s.session.summaryMarkdown ≠ none := by
  induction h with
  | init u => intro h'; cases h'
  | submit plan hs ih =>
    rcases summarize_session_snd plan _ with he | he <;> rw [he]
    · exact ih
    · intro h'; cases h'
  | deliver o hs ih =>
    rcases o with md | ⟨r, b⟩
    · intro _ h'; cases h'
    · intro h'; simp [internal_tasks_summarize] at h'

/-- No overdraft through the transactional gate: however many reserve calls
of amount 1 are applied in sequence (each call is one atomic transaction, so
this covers every interleaving of concurrent callers), the number of
successful reservations never pushes the counter beyond its ceiling: the
successes plus the initial counter stay below `max ceiling initial`. -/
theorem reserve_no_overdraft (plan : String) (k : CounterKey)
    (u : UsageCounterSet) (n : Nat) :
    (reserveSeq plan k 1 u n).1 + usedOf u k ≤
      max (ceilingOf (limitsFor plan) k) (usedOf u k) := by
  induction n generalizing u with
  | zero => simp [reserveSeq]
  | succ n ih =>
    unfold reserveSeq reserve guard_can_consume
    by_cases hc : ceilingOf (limitsFor plan) k ≤ usedOf u k
    · simpa [hc] using ih u
    · have := ih (incr u k 1)
      rw [usedOf_incr] at this
      simp only [hc, if_false]
      simp only [not_le] at hc
      omega

/-! ## Claim theorems -/

/-- C1, counterexample: the claim says a repeated admission call with an
already-recorded idempotency key returns the previously recorded outcome and
"never an error"; but `ensure_idempotency` on a recorded key raises
`ResourceAlreadyProcessed` — the caller receives an error, not the original
Job reference. -/
theorem C1_counterexample :
    ensure_idempotency
        [("K", { context := "summarize", status := "processing" })] "K" "summarize"
      = .error .resourceAlreadyProcessed := by
  rfl

/-- C1, amended: a repeated admission call with an already-recorded key K
does not re-run the admission steps — the guard rejects it with
`ResourceAlreadyProcessed` before any side effect, leaving the lock store
untouched, so the operation executes at most once; the previously recorded
outcome is however not returned to the caller. -/
theorem C1_duplicate_key_rejected_not_replayed
    (locks : List (String × IdemRecord)) (key ctx : String)
    (h : locks.lookup key ≠ none) :
    ensure_idempotency locks key ctx = .error .resourceAlreadyProcessed := by
  unfold ensure_idempotency
  cases hl : locks.lookup key with
  | none => exact absurd hl h
  | some r => rfl

/-- C1, witness: the amended theorem at a concrete two-entry lock store. -/
theorem C1_witness :
    ensure_idempotency
        [("K1", { context := "quiz", status := "processing" }),
         ("K2", { context := "summarize", status := "processing" })] "K2" "summarize"
      = .error .resourceAlreadyProcessed :=
  C1_duplicate_key_rejected_not_replayed _ "K2" "summarize" (by decide)

/-- C2: the WebSocket streaming path gates cloud-STT admission on
`consume_free_cloud_credit`, which is constant `true` (release audit §2.3),
so with the free plan's cloud-session ceiling of 3 all four of four
concurrent admission attempts succeed — the hard ceiling admits more than C
reservations, under every interleaving, because the gate consults no
counter at all. -/
theorem C2_websocket_bypass_admits_over_ceiling :
    FREE_LIMITS.cloud_session = 3 ∧
    (List.replicate (FREE_LIMITS.cloud_session + 1) "freeUser").countP
        (fun uid => consume_free_cloud_credit uid)
      = FREE_LIMITS.cloud_session + 1 ∧
    consume_free_cloud_credit "anyUser" = true := by
  decide

/-- C3, counterexample: the claim says the engine releases the reservation
when a Job finally fails, returning the counter exactly to its
pre-reservation value; but after an admission (counter 0 → 1) followed by a
final worker failure (`retryable=false`) the worker path leaves
`summaryGenerated` at 1 — the account stays charged for work that produced
no output. -/
theorem C3_counterexample :
    let s0 : Sys :=
      { session := { summaryStatus := none, summaryMarkdown := none, summaryError := none }
        usage := { cloudSecondsUsed := 0, cloudSessionsStarted := 0, summaryGenerated := 0,
                   quizGenerated := 0, serverSessionCount := 0 }
        queuedTasks := 0 }
    let s1 := (summarize_session "free" s0).2
    let s2 := (internal_tasks_summarize (.failure "llm_error" false) s1).2
    s0.usage.summaryGenerated = 0 ∧
    s1.usage.summaryGenerated = 1 ∧
    s2.session.summaryStatus = some .failed ∧
    s2.usage.summaryGenerated = 1 := by
  decide

/-- C3, amended: on a final worker failure the engine marks the Job failed
and records the reason, but performs no release at all — the usage counters
are left exactly as reserved, so the account remains charged and repeated
reserve/failure cycles drift the counter upward (consistently with audit
item 9.2, where `cloudEntitledSessionIds` entries are likewise never
removed). -/
theorem C3_failure_keeps_charge (reason : String) (retryable : Bool) (s : Sys) :
    ((internal_tasks_summarize (.failure reason retryable) s).2).usage = s.usage ∧
    ((internal_tasks_summarize (.failure reason retryable) s).2).session.summaryStatus
      = some .failed ∧
    ((internal_tasks_summarize (.failure reason retryable) s).2).session.summaryError
      = some reason :=
  ⟨rfl, rfl, rfl⟩

/-- C4, counterexample: the claim says every Job's status lies in
{pending, running, completed, failed} and that a Job is created in
`pending`; but the jobs sub-collection creates jobs with stored status
string "queued", which is outside the claimed set. -/
theorem C4_counterexample :
    createJob.status.value = "queued" ∧
    "queued" ∉ (["pending", "running", "completed", "failed"] : List String) := by
  decide

/-- C4, amended: every Job status lies in {queued, processing, completed,
failed} (the jobs sub-collection vocabulary; the session-level status
fields expose the same lifecycle as pending/running); a Job is created in
`queued`, the only transition out of `queued` is to `processing` on the
worker handoff, the only transitions out of `processing` are to the
terminal states `completed` or `failed`, and no event — including a
re-delivered callback — changes the status, artifact or error of a Job
that has reached `completed` or `failed`. -/
theorem C4_job_lifecycle :
    createJob.status = JobStatus.queued ∧
    (∀ (j : JobRec) (e : JobEvent), (jobApply j e).status ≠ j.status →
      (j.status = .queued ∧ (jobApply j e).status = .processing ∧ e = .start) ∨
      (j.status = .processing ∧
        ((jobApply j e).status = .completed ∨ (jobApply j e).status = .failed))) ∧
    (∀ (j : JobRec) (e : JobEvent),
      j.status = .completed ∨ j.status = .failed → jobApply j e = j) := by
  refine ⟨rfl, ?_, ?_⟩
  · rintro ⟨st, err, art⟩ e h
    cases st <;> cases e <;> simp_all [jobApply]
  · rintro ⟨st, err, art⟩ e h
    cases st <;> cases e <;> simp_all [jobApply]

/-- C4, witness: a completed Job with an artifact is left untouched by a
re-delivered start event, by the amended theorem. -/
theorem C4_witness :
    jobApply { status := .completed, error := none, artifact := some "summary.md" }
        JobEvent.start
      = { status := .completed, error := none, artifact := some "summary.md" } :=
  C4_job_lifecycle.2.2 _ JobEvent.start (Or.inl rfl)

/-- C5: plan-to-limits selection in `cost_guard.py` sends every non-premium
plan to `FREE_LIMITS`, so a `basic` account is evaluated against the free
ceilings (server_session 5) instead of the basic ones the audit's own fix
table assigns (server_session 20): a basic user with 5 server sessions is
denied with `server_session_limit` although the basic ceiling would admit
15 more. -/
theorem C5_basic_plan_gets_free_limits :
    limitsFor "basic" = FREE_LIMITS ∧
    (limitsFor "basic").server_session = 5 ∧
    BASIC_LIMITS.server_session = 20 ∧
    guard_can_consume "basic"
        { cloudSecondsUsed := 0, cloudSessionsStarted := 0, summaryGenerated := 0,
          quizGenerated := 0, serverSessionCount := 5 } .server_session
      = some "server_session_limit" ∧
    5 < BASIC_LIMITS.server_session := by
  decide

/-- C6: distinct limit identifiers are one-to-one (each guarded counter has
its own user-facing error code); a hard-limit denial always carries exactly
the error code of the counter that was exceeded (`summary_limit` for
`summaryGenerated`, `cloud_minutes_limit` for STT seconds, ...); below the
ceiling the guard allows; and a denied summarize admission leaves the state
untouched — no Job is created and no counter moves. -/
theorem C6_denied_admission_carries_limit_id :
    (∀ k k' : CounterKey, limitIdOf k = limitIdOf k' → k = k') ∧
    (∀ (plan : String) (u : UsageCounterSet) (k : CounterKey),
        ceilingOf (limitsFor plan) k ≤ usedOf u k →
        guard_can_consume plan u k = some (limitIdOf k)) ∧
    (∀ (plan : String) (u : UsageCounterSet) (k : CounterKey),
        usedOf u k < ceilingOf (limitsFor plan) k →
        guard_can_consume plan u k = none) ∧
    (∀ (plan : String) (s : Sys) (limitId : String),
        (summarize_session plan s).1 = .denied limitId →
        (summarize_session plan s).2 = s) := by
  refine ⟨?_, ?_, ?_, ?_⟩
  · intro k k' h
    cases k <;> cases k' <;> first | rfl | exact absurd h (by decide)
  · intro plan u k h
    unfold guard_can_consume
    rw [if_pos h]
  · intro plan u k h
    unfold guard_can_consume
    rw [if_neg (not_le.mpr h)]
  · intro plan s limitId h
    obtain ⟨⟨st, md, err⟩, u, q⟩ := s
    unfold summarize_session at h ⊢
    rcases st with _ | st
    · rcases hg : guard_can_consume plan u .summary_generated with _ | l
      · simp [hg] at h
      · simp [hg]
    · cases st with
      | queued => rfl
      | running => rfl
      | completed =>
        rcases md with _ | md
        · rcases hg : guard_can_consume plan u .summary_generated with _ | l
          · simp [hg] at h
          · simp [hg]
        · rfl
      | failed =>
        rcases hg : guard_can_consume plan u .summary_generated with _ | l
        · simp [hg] at h
        · simp [hg]

/-- C6, witness: a free account at the summary ceiling (3 of 3 used) is
denied with exactly `summary_limit`, by the claim theorem. -/
theorem C6_witness :
    guard_can_consume "free"
        { cloudSecondsUsed := 0, cloudSessionsStarted := 0, summaryGenerated := 3,
          quizGenerated := 0, serverSessionCount := 0 } .summary_generated
      = some "summary_limit" :=
  C6_denied_admission_carries_limit_id.2.1 "free" _ .summary_generated (by decide)

/-- C7: if the session already has a summarize Job in flight — status
`queued` (created/enqueued, the code-level name of the claim's `pending`)
or `running` — a new admission call short-circuits with a 202 carrying
that existing status and changes nothing: no second Job is enqueued and
the usage counter is untouched. -/
theorem C7_duplicate_nonterminal_short_circuits (plan : String) (s : Sys)
    (h : s.session.summaryStatus = some SumStatus.queued ∨
         s.session.summaryStatus = some SumStatus.running) :
    (summarize_session plan s).2 = s ∧
    ∃ st, s.session.summaryStatus = some st ∧
      (summarize_session plan s).1 = .alreadyRunning st := by
  obtain ⟨⟨st, md, err⟩, u, q⟩ := s
  rcases h with h | h <;> rw [show st = _ from h] <;>
    exact ⟨rfl, _, rfl, rfl⟩

/-- C7, witness: a concrete session with a running summarize Job and one
enqueued task is returned unchanged, by the claim theorem. -/
theorem C7_witness :
    let s : Sys :=
      { session := { summaryStatus := some .running, summaryMarkdown := none,
                     summaryError := none }
        usage := { cloudSecondsUsed := 0, cloudSessionsStarted := 0, summaryGenerated := 1,
                   quizGenerated := 0, serverSessionCount := 1 }
        queuedTasks := 1 }
    (summarize_session "free" s).2 = s ∧
    ∃ st, s.session.summaryStatus = some st ∧
      (summarize_session "free" s).1 = .alreadyRunning st :=
  C7_duplicate_nonterminal_short_circuits "free" _ (Or.inr rfl)

/-- C8, counterexample: the claim says a retryable worker failure is never
recorded as final while retries remain; but on the very first delivery of a
`retryable=true` failure the task handler records `summaryStatus = failed`
with the error, and answers HTTP 200 OK — so Cloud Tasks never redelivers
and no retry ever happens, whatever retry budget the claim assumes. -/
theorem C8_counterexample :
    let s1 : Sys :=
      { session := { summaryStatus := some .running, summaryMarkdown := none,
                     summaryError := none }
        usage := { cloudSecondsUsed := 0, cloudSessionsStarted := 0, summaryGenerated := 1,
                   quizGenerated := 0, serverSessionCount := 0 }
        queuedTasks := 1 }
    let r := internal_tasks_summarize (.failure "llm_rate_limit_429" true) s1
    r.1 = 200 ∧
    r.2.session.summaryStatus = some .failed ∧
    r.2.session.summaryError = some "llm_rate_limit_429" ∧
    r.2.queuedTasks = 0 := by
  decide

/-- C8, amended: every worker failure — retryable or not — immediately
transitions the Job to `failed` with the errorReason recorded in
`summaryError`, and the handler returns 200 OK so the dispatch substrate
performs no redelivery: there is no automatic re-dispatch and no retry
count; the failure is distinguishable but final on first report. -/
theorem C8_failure_is_final_no_retry (reason : String) (retryable : Bool) (s : Sys) :
    (internal_tasks_summarize (.failure reason retryable) s).1 = 200 ∧
    (internal_tasks_summarize (.failure reason retryable) s).2.session.summaryStatus
      = some .failed ∧
    (internal_tasks_summarize (.failure reason true) s).2
      = (internal_tasks_summarize (.failure reason false) s).2 :=
  ⟨rfl, rfl, rfl⟩

/-- C9, counterexample: the claim says every AudioAsset state is one of
{pending, available, processing, ready, failed, expired, deleted}; but
`uploading` is an `AudioStatus` member outside that set, while neither
"ready" nor "deleted" is a member of the enum at all (audit §6.1: writing
`AudioStatus.DELETED` raises `AttributeError`). -/
theorem C9_counterexample :
    AudioStatus.value .uploading = "uploading" ∧
    "uploading" ∉ (["pending", "available", "processing", "ready", "failed",
                    "expired", "deleted"] : List String) ∧
    AudioStatus.ofValue "ready" = none ∧
    AudioStatus.ofValue "deleted" = none := by
  decide

/-- C9, amended: every AudioAsset state is one of the `AudioStatus` enum
values pending, uploading, uploaded, processing, available, expired,
unknown, failed; the upload flow transitions pending → available (commit) →
processing (uploaded-notify), a failed transcription task moves processing
to failed, and the time-based sweep moves non-terminal states to expired;
"ready" is not a stored audio state (completion stores the transcript), and
the deletion step intended by the cleanup sweep is not representable since
the enum lacks a deleted member (audit §6.1). -/
theorem C9_audio_lifecycle :
    (∀ s : AudioStatus, AudioStatus.ofValue (AudioStatus.value s) = some s) ∧
    audioStep .pending .commit = .available ∧
    audioStep .available .uploadedNotify = .processing ∧
    audioStep .processing .taskFailed = .failed ∧
    audioStep .available .sweepExpire = .expired ∧
    audioStep .processing .sweepExpire = .expired ∧
    AudioStatus.ofValue "deleted" = none ∧
    AudioStatus.ofValue "ready" = none := by
  refine ⟨fun s => ?_, rfl, rfl, rfl, rfl, rfl, by decide, by decide⟩
  cases s <;> decide

/-- C10: re-submitting summarize for a session whose summary Job is already
`completed` (any state reachable by the engine) never enqueues new work:
the endpoint short-circuits and returns HTTP 200 with the stored
`summaryMarkdown`, leaving every piece of state — session document, usage
counters, task queue — exactly unchanged. -/
theorem C10_completed_resubmission_returns_cache (plan : String) {s : Sys}
    (hr : Reach s) (hc : s.session.summaryStatus = some SumStatus.completed) :
    ∃ md, s.session.summaryMarkdown = some md ∧
      summarize_session plan s = (.cached md, s) := by
  have hmd := reach_completed_has_markdown hr hc
  clear hr
  obtain ⟨⟨st, md', err⟩, u, q⟩ := s
  subst hc
  cases md' with
  | none => exact absurd rfl hmd
  | some md => exact ⟨md, rfl, rfl⟩

/-- C10, witness: a fresh session taken through admission and a successful
worker delivery reaches `completed`; the claim theorem then returns the
stored summary with the state unchanged. -/
theorem C10_witness :
    let s0 : Sys :=
      { session := { summaryStatus := none, summaryMarkdown := none, summaryError := none }
        usage := { cloudSecondsUsed := 0, cloudSessionsStarted := 0, summaryGenerated := 0,
                   quizGenerated := 0, serverSessionCount := 0 }
        queuedTasks := 0 }
    let s2 := (internal_tasks_summarize (.success "summary text")
                ((summarize_session "free" s0).2)).2
    ∃ md, s2.session.summaryMarkdown = some md ∧
      summarize_session "free" s2 = (.cached md, s2) :=
  C10_completed_resubmission_returns_cache "free"
    (Reach.deliver _ (Reach.submit "free" (Reach.init _))) (by decide)

end Classnote
